import Mathlib

/-
Verification of the ragnos-vault TUF client and repository initializer.

The dispatcher, error wrapping and exit-code logic are embedded from
src/env-interceptor/src/python-tuf-client.py.  The repository builder is
embedded from src/env-interceptor/scripts/init-tuf-repo.py.  The metadata
refresh engine and the target verifier live inside the python-tuf library,
which is not part of the repository sources; those two components are
modelled from the specification (sections 4.4 and 4.5) and are marked as
such in their doc comments.
-/

namespace RagnosVault

/-- Helper: does the pattern occur at the head of the character list. -/
def seg_at : List Char → List Char → Bool
  | [], _ => true
  | _ :: _, [] => false
  | a :: as, b :: bs => a = b && seg_at as bs

/-- Helper: does the pattern occur anywhere in the character list. -/
def has_seg (p : List Char) : List Char → Bool
  | [] => p.isEmpty
  | c :: rest => seg_at p (c :: rest) || has_seg p rest

/-- Python substring test `p in s` used by the exit-code classifier. -/
def strContains (s p : String) : Bool :=
  has_seg p.toList s.toList

/-- Python truthiness test on an optional string field of the request:
`None` and the empty string are falsy. -/
def falsy : Option String → Bool
  | none => true
  | some s => s.isEmpty

/-- First-match association-list lookup (Python dict read for our purposes). -/
def lookup_assoc {α : Type} : List (String × α) → String → Option α
  | [], _ => none
  | (k, v) :: rest, key => if k = key then some v else lookup_assoc rest key

/-! ## Dispatcher embedding, from src/env-interceptor/src/python-tuf-client.py -/

/-- The python-tuf exceptions that `PythonTUFClient.refresh_metadata`
catches (lines 99-122): `ExpiredMetadataError`, `UnsignedMetadataError`,
`BadVersionNumberError`, and a catch-all carrying the exception class name. -/
inductive TufExc where
  | expired_metadata_error (msg : String)
  | unsigned_metadata_error (msg : String)
  | bad_version_number_error (msg : String)
  | other_error (ename : String) (msg : String)
deriving DecidableEq

/-- Result of `refresh_metadata`: the ok dict, or an error dict carrying
`error` and optionally `error_type`. -/
inductive RefreshResult where
  | ok
  | failure (error : String) (error_type : Option String)
deriving DecidableEq

/-- `PythonTUFClient.refresh_metadata` (lines 85-122): wraps the library
`refresh()` call; the library outcome is the `outcome` parameter. -/
def refresh_metadata (initialized : Bool) (outcome : Option TufExc) : RefreshResult :=
  if !initialized then .failure "TUF client not initialized" none
  else
    match outcome with
    | none => .ok
    | some (.expired_metadata_error m) =>
        .failure ("Expired metadata detected: " ++ m) (some "ExpiredMetadata")
    | some (.unsigned_metadata_error m) =>
        .failure ("Invalid signature detected: " ++ m) (some "InvalidSignature")
    | some (.bad_version_number_error m) =>
        .failure ("Rollback attack detected: " ++ m) (some "RollbackAttack")
    | some (.other_error n m) =>
        .failure ("Metadata refresh failed: " ++ m) (some n)

/-- Successful download payload assembled by `verify_and_download_target`
(lines 153-164). -/
structure TargetData where
  target_path : String
  local_path : String
  byte_length : Nat
  sha256_hex : String
  sha512_hex : String
  content_hex : String
deriving DecidableEq

/-- Outcome of the library calls made by `verify_and_download_target`:
`get_targetinfo` returns `None`; an exception is raised while resolving or
downloading; the downloaded file is missing; or the verified bytes arrive. -/
inductive DlOutcome where
  | info_none
  | raises (ename : String) (msg : String)
  | missing_after
  | got (byte_length : Nat) (sha256_hex sha512_hex content_hex : String)
deriving DecidableEq

/-- Result of `verify_and_download_target`. -/
inductive DlResult where
  | ok (d : TargetData)
  | failure (error : String) (error_type : Option String)
deriving DecidableEq

/-- `PythonTUFClient.verify_and_download_target` (lines 124-171). -/
def verify_and_download_target (initialized : Bool) (targets_dir target_path : String)
    (o : DlOutcome) : DlResult :=
  if !initialized then .failure "TUF client not initialized" none
  else
    match o with
    | .info_none => .failure ("Target not found: " ++ target_path) none
    | .raises en m => .failure ("Target verification failed: " ++ m) (some en)
    | .missing_after =>
        .failure ("Downloaded target not found: " ++ targets_dir ++ "/" ++ target_path) none
    | .got len h256 h512 hex =>
        .ok ⟨target_path, targets_dir ++ "/" ++ target_path, len, h256, h512, hex⟩

/-- An NDJSON request as read by `main` via `request.get` (lines 213-234):
absent fields are `None`. -/
structure Request where
  command : Option String
  repo_url : Option String
  metadata_dir : Option String
  targets_dir : Option String
  trusted_root : Option String
  target : Option String
deriving DecidableEq

/-- The `data` payloads of successful responses built by `main`. -/
inductive RespData where
  | test_data (python_version : String)
  | init_data (metadata_dir targets_dir repo_url : String)
  | refreshed
  | download_data (d : TargetData) (content_length : Nat)
  | list_data (count : Nat)
deriving DecidableEq

/-- A response line: `ok: true` with data, or `ok: false` with an error
record carrying `code` and `message`. -/
inductive Response where
  | ok_resp (d : RespData)
  | err_resp (code : String) (message : String)
deriving DecidableEq

/-- Environment of one dispatcher run: the outcomes of the library and
filesystem calls the handlers make, plus whether an unexpected exception
escapes inside the command-processing block. -/
structure PyEnv where
  init_error : Option String
  refresh_exc : Option TufExc
  dl_outcome : DlOutcome
  list_error : Option String
  list_count : Nat
  raises_internal : Bool
  python_version : String

/-- Exit-code classifier at the bottom of `main` (lines 334-346). -/
def exit_code_for (r : Response) : Nat :=
  match r with
  | .ok_resp _ => 0
  | .err_resp code _ =>
      if strContains code "INVALID_ARGS" then 10
      else if strContains code "REPO" || strContains code "INIT" ||
              strContains code "REFRESH" then 20
      else if strContains code "VERIFY" || strContains code "DOWNLOAD" then 30
      else 50

/-- The command handlers of `main` (lines 255-319), run after the client is
constructed. -/
def run_command (req : Request) (env : PyEnv) : Response :=
  if req.command = some "init" then
    match env.init_error with
    | none => .ok_resp (.init_data (req.metadata_dir.getD "") (req.targets_dir.getD "")
        (req.repo_url.getD ""))
    | some e => .err_resp "PY_TUF_INIT_FAILED" e
  else if req.command = some "refresh" then
    match env.init_error with
    | some e => .err_resp "PY_TUF_INIT_FAILED" e
    | none =>
        match refresh_metadata true env.refresh_exc with
        | .ok => .ok_resp .refreshed
        | .failure m _ => .err_resp "PY_TUF_REFRESH_FAILED" m
  else if req.command = some "download" then
    if falsy req.target then
      .err_resp "PY_TUF_INVALID_ARGS" "Target path required for download"
    else
      match env.init_error with
      | some e => .err_resp "PY_TUF_INIT_FAILED" e
      | none =>
          match refresh_metadata true env.refresh_exc with
          | .failure m _ => .err_resp "PY_TUF_REFRESH_FAILED" m
          | .ok =>
              match verify_and_download_target true (req.targets_dir.getD "")
                  (req.target.getD "") env.dl_outcome with
              | .ok d => .ok_resp (.download_data d (d.content_hex.length / 2))
              | .failure m _ => .err_resp "PY_TUF_DOWNLOAD_FAILED" m
  else if req.command = some "list" then
    match env.init_error with
    | some e => .err_resp "PY_TUF_INIT_FAILED" e
    | none =>
        match refresh_metadata true env.refresh_exc with
        | .failure m _ => .err_resp "PY_TUF_REFRESH_FAILED" m
        | .ok =>
            match env.list_error with
            | none => .ok_resp (.list_data env.list_count)
            | some e => .err_resp "PY_TUF_LIST_FAILED" e
  else
    .err_resp "PY_TUF_UNKNOWN_COMMAND" ("Unknown command: " ++ req.command.getD "None")

/-- The request-processing block of `main` (lines 213-326): the `test`
command is answered before the required-parameter check; a `JSONDecodeError`
or an unexpected exception calls `sys.exit` before any line is printed, so
those paths produce no response.  Returns the printed line, if any, and the
process exit code. -/
def process_request (req : Request) (env : PyEnv) : Option Response × Nat :=
  if req.command = some "test" then
    (some (.ok_resp (.test_data env.python_version)), 0)
  else if falsy req.repo_url || falsy req.metadata_dir || falsy req.targets_dir ||
      falsy req.trusted_root then
    (some (.err_resp "PY_TUF_INVALID_ARGS"
      "Missing required parameters: repo_url, metadata_dir, targets_dir, trusted_root"), 10)
  else if env.raises_internal then
    (none, 50)
  else
    let r := run_command req env
    (some r, exit_code_for r)

/-- One stdin line as seen by `main`: empty after strip, rejected by
`json.loads`, or parsed into a request. -/
inductive StdinLine where
  | empty_line
  | bad_json (msg : String)
  | parsed (req : Request)

/-- `main` (lines 202-346).  `has_args` is true when extra argv entries put
the process in legacy CLI mode (line 205). -/
def run_main (has_args : Bool) (line : StdinLine) (env : PyEnv) : Option Response × Nat :=
  if has_args then
    let r := Response.err_resp "PY_TUF_INVALID_ARGS" "Use NDJSON stdin interface"
    (some r, exit_code_for r)
  else
    match line with
    | .empty_line => (some (.err_resp "PY_TUF_NO_INPUT" "No input received"), 10)
    | .bad_json _ => (none, 10)
    | .parsed req => process_request req env

/-! ## Refresh engine, modelled from the spec (section 4.4) -/

/-- The error taxonomy of the refresh engine (spec section 7, restricted to
the kinds a metadata refresh can raise). -/
inductive ErrKind where
  | expired_metadata
  | invalid_signature
  | rollback_attack
  | inconsistent_metadata
deriving DecidableEq

/-- A fetched or trusted metadata document: its declared version, absolute
expiry instant, the number of valid signatures it carries from the role's
declared key set, and the length and digest of its serialized bytes. -/
structure MetaDoc where
  version : Nat
  expires : Int
  valid_sigs : Nat
  byte_length : Nat
  digest : Nat
deriving DecidableEq

/-- A parent document's pin of a child document: exact version, length and
hash (spec section 3, SnapshotDocument and TimestampDocument rows). -/
structure MetaPin where
  version : Nat
  byte_length : Nat
  digest : Nat
deriving DecidableEq

/-- The client's persisted TrustState: the last verified document of each
of the four roles (spec section 3, TrustState row). -/
structure TrustState where
  root : MetaDoc
  timestamp : MetaDoc
  snapshot : MetaDoc
  targets : MetaDoc
deriving DecidableEq

/-- Signature thresholds per role, as declared by the trusted root. -/
structure Thresholds where
  root : Nat
  timestamp : Nat
  snapshot : Nat
  targets : Nat
deriving DecidableEq

/-- The documents fetched by one refresh: timestamp, snapshot and targets
are always fetched; a new root only when the repository advertises one.
The pins are the meta entries of the fetched timestamp (for snapshot.json)
and of the fetched snapshot (for targets.json). -/
structure FetchedSet where
  timestamp : MetaDoc
  snapshot_pin : MetaPin
  snapshot : MetaDoc
  targets_pin : MetaPin
  targets : MetaDoc
  new_root : Option MetaDoc
deriving DecidableEq

/-- The four role names. -/
inductive RoleName where
  | root
  | timestamp
  | snapshot
  | targets
deriving DecidableEq

/-- Modelled from the spec: the per-document checks of one refresh step
(section 4.4).  The expiry check is placed first, per section 8: an expired
document is rejected as ExpiredMetadata regardless of signature validity;
then the signature threshold, then version monotonicity (a strictly lower
version is a rollback). -/
def check_doc (now : Int) (threshold prev_version : Nat) (d : MetaDoc) : Option ErrKind :=
  if d.expires ≤ now then some .expired_metadata
  else if d.valid_sigs < threshold then some .invalid_signature
  else if d.version < prev_version then some .rollback_attack
  else none

/-- Modelled from the spec: a child document matches the parent's declared
serialized length and hash (section 4.4 steps 2 and 3). -/
def pin_matches (pin : MetaPin) (d : MetaDoc) : Bool :=
  d.byte_length = pin.byte_length && d.digest = pin.digest

/-- Modelled from the spec: the RefreshEngine of section 4.4, which is not
part of the repository sources (it lives in the python-tuf library; the
sources only wrap its exceptions).  Fixed step order timestamp, snapshot,
targets, then an optionally advertised root; each step runs the consistency
check against the parent's pin, then `check_doc`.  The first failure aborts
the whole refresh. -/
def refresh_engine (now : Int) (th : Thresholds) (st : TrustState) (f : FetchedSet) :
    Except ErrKind TrustState :=
  match check_doc now th.timestamp st.timestamp.version f.timestamp with
  | some e => .error e
  | none =>
    if !pin_matches f.snapshot_pin f.snapshot then .error .inconsistent_metadata
    else
      match check_doc now th.snapshot st.snapshot.version f.snapshot with
      | some e => .error e
      | none =>
        if !pin_matches f.targets_pin f.targets then .error .inconsistent_metadata
        else
          match check_doc now th.targets st.targets.version f.targets with
          | some e => .error e
          | none =>
            match f.new_root with
            | none => .ok ⟨st.root, f.timestamp, f.snapshot, f.targets⟩
            | some r =>
                match check_doc now th.root st.root.version r with
                | some e => .error e
                | none => .ok ⟨r, f.timestamp, f.snapshot, f.targets⟩

/-- Modelled from the spec: persistence of a refresh (section 4.4 closing
paragraph): a fully successful refresh replaces TrustState; any failure
leaves the previous TrustState in effect and reports the error kind. -/
def refresh_and_persist (now : Int) (th : Thresholds) (st : TrustState) (f : FetchedSet) :
    TrustState × Option ErrKind :=
  match refresh_engine now th st f with
  | .ok st2 => (st2, none)
  | .error e => (st, some e)

/-- The document the refresh run holds for a role: the three always-fetched
documents, or the optionally advertised new root. -/
def fetched_doc (f : FetchedSet) : RoleName → Option MetaDoc
  | .timestamp => some f.timestamp
  | .snapshot => some f.snapshot
  | .targets => some f.targets
  | .root => f.new_root

/-- The trusted (previous) version of a role in a TrustState. -/
def trusted_version (st : TrustState) : RoleName → Nat
  | .root => st.root.version
  | .timestamp => st.timestamp.version
  | .snapshot => st.snapshot.version
  | .targets => st.targets.version

/-- The threshold the trusted root declares for a role. -/
def threshold_of (th : Thresholds) : RoleName → Nat
  | .root => th.root
  | .timestamp => th.timestamp
  | .snapshot => th.snapshot
  | .targets => th.targets

/-- Whether a role's refresh step completes with no error. -/
def step_ok (now : Int) (threshold prev_version : Nat) (d : MetaDoc) : Bool :=
  (check_doc now threshold prev_version d).isNone

/-- Whether the sequential refresh run reaches (encounters) a role's
document checks: the timestamp is encountered first; each later document is
encountered only once every earlier step has fully passed and its own
consistency pin matches. -/
def reaches (now : Int) (th : Thresholds) (st : TrustState) (f : FetchedSet) :
    RoleName → Bool
  | .timestamp => true
  | .snapshot =>
      step_ok now th.timestamp st.timestamp.version f.timestamp &&
      pin_matches f.snapshot_pin f.snapshot
  | .targets =>
      step_ok now th.timestamp st.timestamp.version f.timestamp &&
      pin_matches f.snapshot_pin f.snapshot &&
      step_ok now th.snapshot st.snapshot.version f.snapshot &&
      pin_matches f.targets_pin f.targets
  | .root =>
      step_ok now th.timestamp st.timestamp.version f.timestamp &&
      pin_matches f.snapshot_pin f.snapshot &&
      step_ok now th.snapshot st.snapshot.version f.snapshot &&
      pin_matches f.targets_pin f.targets &&
      step_ok now th.targets st.targets.version f.targets

/-- Glue between the spec-modelled engine and the embedded exception
handlers: which python-tuf exception each refresh error kind surfaces as.
A version rollback raises BadVersionNumberError, expiry raises
ExpiredMetadataError, a signature shortfall raises UnsignedMetadataError,
and a pin mismatch raises the library's length-or-hash mismatch error,
which the client catches generically. -/
def exc_of_kind : ErrKind → TufExc
  | .expired_metadata => .expired_metadata_error "expired metadata"
  | .invalid_signature => .unsigned_metadata_error "insufficient signatures"
  | .rollback_attack => .bad_version_number_error "version rollback"
  | .inconsistent_metadata => .other_error "LengthOrHashMismatchError" "length or hash mismatch"

/-- The `refresh()` call outcome the dispatcher environment sees for a
given engine result. -/
def exc_of_refresh (r : Except ErrKind TrustState) : Option TufExc :=
  match r with
  | .ok _ => none
  | .error k => some (exc_of_kind k)

/-! ## Target verifier, modelled from the spec (section 4.5) -/

/-- A targets-metadata entry for one artifact path: expected byte length
and the configured digests. -/
structure TargetFileEntry where
  byte_length : Nat
  hashes : List Nat
deriving DecidableEq

/-- Error kinds of the target verifier. -/
inductive TVErr where
  | target_not_found
  | verification_failed
deriving DecidableEq

/-- Modelled from the spec: byte verification of a fetched artifact
(section 4.5): the byte length and at least one configured hash digest
must match exactly.  The digest algorithm is abstracted as `hash_fn`. -/
def verify_artifact (hash_fn : List Nat → Nat) (entry : TargetFileEntry)
    (bytes : List Nat) : Bool :=
  (bytes.length = entry.byte_length : Bool) && entry.hashes.any fun h => hash_fn bytes = h

/-- Modelled from the spec: the TargetVerifier of section 4.5, which is not
part of the repository sources (it lives in python-tuf's `get_targetinfo`
and `download_target`).  A path absent from the trusted targets metadata is
TargetNotFound; fetched bytes that mismatch the declared length or every
configured hash are VerificationFailed and never surfaced as valid. -/
def target_verifier (hash_fn : List Nat → Nat) (targets : List (String × TargetFileEntry))
    (path : String) (bytes : List Nat) : Except TVErr (List Nat) :=
  match lookup_assoc targets path with
  | none => .error .target_not_found
  | some entry =>
      if verify_artifact hash_fn entry bytes then .ok bytes
      else .error .verification_failed

/-- Glue between the spec-modelled verifier and the embedded client: a
missing target surfaces as `get_targetinfo` returning None; a byte
mismatch surfaces as the library raising its length-or-hash mismatch error
during `download_target`; verified bytes arrive intact. -/
def dl_outcome_of (r : Except TVErr (List Nat)) : DlOutcome :=
  match r with
  | .error .target_not_found => .info_none
  | .error .verification_failed => .raises "LengthOrHashMismatchError" "length or hash mismatch"
  | .ok bytes => .got bytes.length "" "" ""

/-! ## Repository initializer embedding, from src/env-interceptor/scripts/init-tuf-repo.py -/

/-- A role entry of the root metadata: the key ids authorized for the role
and the signature threshold (`Role(keyids=..., threshold=...)`). -/
structure RoleInfo where
  keyids : List String
  threshold : Nat
deriving DecidableEq

/-- The signed payload of the root document built by `create_root_metadata`
(lines 96-143). -/
structure RootPayload where
  version : Nat
  expires : Int
  keys : List (String × String)
  roles : List (String × RoleInfo)
  consistent_snapshot : Bool
deriving DecidableEq

/-- A target-file entry of the targets document: declared length and
sha256 digest. -/
structure TargetEntryMeta where
  byte_length : Nat
  sha256 : Nat
deriving DecidableEq

/-- The signed payload of the targets document built by
`create_targets_metadata` (lines 215-253). -/
structure TargetsPayload where
  version : Nat
  expires : Int
  targets : List (String × TargetEntryMeta)
deriving DecidableEq

/-- A meta entry pinning a child metadata file: its version, the byte
length of its serialized JSON, and the sha256 digest of those bytes. -/
structure MetaFileAttrs where
  version : Nat
  byte_length : Nat
  sha256 : Nat
deriving DecidableEq

/-- The signed payload of the snapshot document built by
`create_snapshot_metadata` (lines 255-298). -/
structure SnapshotPayload where
  version : Nat
  expires : Int
  meta : List (String × MetaFileAttrs)
deriving DecidableEq

/-- The signed payload of the timestamp document built by
`create_timestamp_metadata` (lines 300-343). -/
structure TimestampPayload where
  version : Nat
  expires : Int
  meta : List (String × MetaFileAttrs)
deriving DecidableEq

/-- A metadata wrapper holding a signed payload and its signatures, as in
`Metadata(root)` followed by `metadata.sign(signer)`. -/
structure SignedMeta (α : Type) where
  signed : α
  signatures : List Nat
deriving DecidableEq

/-- `Metadata.sign`: append the signer's signature. -/
def sign_meta {α : Type} (signer : Nat) (m : SignedMeta α) : SignedMeta α :=
  { m with signatures := m.signatures ++ [signer] }

/-- Seconds in a day, used to turn the `timedelta` expiry offsets of the
initializer's `expiry_config` (lines 38-43) into absolute instants. -/
def day_seconds : Int := 86400

/-- `create_root_metadata` (lines 96-143): one key per role, threshold 1,
every role's key inserted into the global keys map, version 1,
consistent_snapshot true.  `kid` gives the generated key id of each role. -/
def create_root_metadata (now : Int) (kid : RoleName → String) (root_signer : Nat) :
    SignedMeta RootPayload :=
  let roles : List (String × RoleInfo) :=
    [("root", ⟨[kid .root], 1⟩), ("targets", ⟨[kid .targets], 1⟩),
     ("snapshot", ⟨[kid .snapshot], 1⟩), ("timestamp", ⟨[kid .timestamp], 1⟩)]
  let keys : List (String × String) :=
    [(kid .root, "ed25519"), (kid .targets, "ed25519"),
     (kid .snapshot, "ed25519"), (kid .timestamp, "ed25519")]
  sign_meta root_signer ⟨⟨1, now + 90 * day_seconds, keys, roles, true⟩, []⟩

/-- `create_targets_metadata` (lines 215-253): one entry for the sample
plugin, version 1, 30-day expiry, signed with the targets key. -/
def create_targets_metadata (now : Int) (targets_signer : Nat) (plugin_path : String)
    (plugin_size : Nat) (plugin_sha256 : Nat) : SignedMeta TargetsPayload :=
  sign_meta targets_signer
    ⟨⟨1, now + 30 * day_seconds, [(plugin_path, ⟨plugin_size, plugin_sha256⟩)]⟩, []⟩

/-- `create_snapshot_metadata` (lines 255-298): serializes the signed
targets document, records its version together with the byte length and
sha256 digest of those serialized bytes under the key targets.json,
version 1, 14-day expiry, signed with the snapshot key.  `targets_to_json`
is the serializer and `sha256` the digest function, both abstract. -/
def create_snapshot_metadata (sha256 : List Nat → Nat)
    (targets_to_json : SignedMeta TargetsPayload → List Nat) (now : Int)
    (snapshot_signer : Nat) (targets_metadata : SignedMeta TargetsPayload) :
    SignedMeta SnapshotPayload :=
  let targets_json := targets_to_json targets_metadata
  sign_meta snapshot_signer
    ⟨⟨1, now + 14 * day_seconds,
      [("targets.json",
        ⟨targets_metadata.signed.version, targets_json.length, sha256 targets_json⟩)]⟩, []⟩

/-- `create_timestamp_metadata` (lines 300-343): serializes the signed
snapshot document, records its version together with the byte length and
sha256 digest of those serialized bytes under the key snapshot.json,
version 1, 24-hour expiry, signed with the timestamp key. -/
def create_timestamp_metadata (sha256 : List Nat → Nat)
    (snapshot_to_json : SignedMeta SnapshotPayload → List Nat) (now : Int)
    (timestamp_signer : Nat) (snapshot_metadata : SignedMeta SnapshotPayload) :
    SignedMeta TimestampPayload :=
  let snapshot_json := snapshot_to_json snapshot_metadata
  sign_meta timestamp_signer
    ⟨⟨1, now + 1 * day_seconds,
      [("snapshot.json",
        ⟨snapshot_metadata.signed.version, snapshot_json.length, sha256 snapshot_json⟩)]⟩, []⟩

/-- The serializers of the four document shapes, standing for
`Metadata.to_json(...).encode(utf-8)`: each is an abstract function from
the signed document to its canonical bytes. -/
structure Serializers where
  root_to_json : SignedMeta RootPayload → List Nat
  targets_to_json : SignedMeta TargetsPayload → List Nat
  snapshot_to_json : SignedMeta SnapshotPayload → List Nat
  timestamp_to_json : SignedMeta TimestampPayload → List Nat

/-- The metadata documents produced by one run of
`TUFRepositoryInitializer.run` (lines 375-413), in dependency order root,
targets, snapshot, timestamp. -/
structure RepoBuild where
  root_md : SignedMeta RootPayload
  targets_md : SignedMeta TargetsPayload
  snapshot_md : SignedMeta SnapshotPayload
  timestamp_md : SignedMeta TimestampPayload

/-- The metadata-construction portion of `TUFRepositoryInitializer.run`
(lines 390-394). -/
def initializer_run (ser : Serializers) (sha256 : List Nat → Nat) (now : Int)
    (kid : RoleName → String) (signer_of : RoleName → Nat) (plugin_path : String)
    (plugin_size : Nat) (plugin_sha256 : Nat) : RepoBuild :=
  let root_md := create_root_metadata now kid (signer_of .root)
  let targets_md := create_targets_metadata now (signer_of .targets) plugin_path
    plugin_size plugin_sha256
  let snapshot_md := create_snapshot_metadata sha256 ser.targets_to_json now
    (signer_of .snapshot) targets_md
  let timestamp_md := create_timestamp_metadata sha256 ser.snapshot_to_json now
    (signer_of .timestamp) snapshot_md
  ⟨root_md, targets_md, snapshot_md, timestamp_md⟩

/-- The files the initializer writes under metadata_dir: each document is
written both as role.json and as an immutable 1.role.json copy, with the
bytes produced by the same serializer call used for hashing. -/
def initializer_files (ser : Serializers) (b : RepoBuild) : List (String × List Nat) :=
  [("metadata/root.json", ser.root_to_json b.root_md),
   ("metadata/1.root.json", ser.root_to_json b.root_md),
   ("metadata/targets.json", ser.targets_to_json b.targets_md),
   ("metadata/1.targets.json", ser.targets_to_json b.targets_md),
   ("metadata/snapshot.json", ser.snapshot_to_json b.snapshot_md),
   ("metadata/1.snapshot.json", ser.snapshot_to_json b.snapshot_md),
   ("metadata/timestamp.json", ser.timestamp_to_json b.timestamp_md),
   ("metadata/1.timestamp.json", ser.timestamp_to_json b.timestamp_md)]

/-- Well-formedness of one role entry against the root's keys map: the
threshold is at least 1 and at most the size of the key-id set, and every
referenced key id resolves in the keys map. -/
def role_wellformed (keys : List (String × String)) (ri : RoleInfo) : Prop :=
  1 ≤ ri.threshold ∧ ri.threshold ≤ ri.keyids.length ∧
    ∀ k ∈ ri.keyids, (lookup_assoc keys k).isSome = true

/-- Refinement definition following the specification's words (section 6):
exit 0 on success; 10 for missing input, bad JSON or missing or invalid
arguments; 20 for bootstrap or refresh failure; 30 for verification or
download failure; 50 for anything else. -/
def spec_exit_code : Response → Nat
  | .ok_resp _ => 0
  | .err_resp code _ =>
      if code = "PY_TUF_NO_INPUT" || code = "PY_TUF_INVALID_ARGS" ||
          code = "PY_TUF_BAD_JSON" then 10
      else if code = "PY_TUF_INIT_FAILED" || code = "PY_TUF_REFRESH_FAILED" then 20
      else if code = "PY_TUF_DOWNLOAD_FAILED" then 30
      else 50

/-! ## General lemmas -/

theorem lookup_assoc_isSome_of_mem {α : Type} (l : List (String × α)) (k : String)
    (h : k ∈ l.map Prod.fst) : (lookup_assoc l k).isSome = true := by
  induction l with
  | nil => simp at h
  | cons hd tl ih =>
      rw [lookup_assoc]
      by_cases hk : hd.1 = k
      · simp [hk]
      · simp only [List.map_cons, List.mem_cons] at h
        rcases h with h | h
        · exact absurd h.symm hk
        · simp [hk, ih h]

/-! ## Claim theorems -/

/-- C10: a request whose command field is test is answered ok true with
exit code 0, for any values (including absent) of repo_url, metadata_dir,
targets_dir, trusted_root and target, and for any library-call outcomes:
the test branch runs before the required-parameter check. -/
theorem c10_test_command_short_circuit (ru md td tr tg : Option String) (env : PyEnv) :
    run_main false (.parsed ⟨some "test", ru, md, td, tr, tg⟩) env =
      (some (.ok_resp (.test_data env.python_version)), 0) := rfl

/-- C7 (code bug): on an stdin line rejected by the JSON parser, and on a
request that raises an unexpected internal exception, the dispatcher calls
`sys.exit` before printing, so it emits no response line at all — exit
codes 10 and 50 respectively with no output, contradicting the
one-line-in, one-line-out contract. -/
theorem c7_no_response_line_on_bad_json_or_internal :
    run_main false (.bad_json "Expecting value: line 1 column 1")
        ⟨none, none, .info_none, none, 0, false, "3.11.0"⟩ = (none, 10) ∧
    run_main false
        (.parsed ⟨some "refresh", some "http://localhost:8080", some "/tmp/md",
          some "/tmp/tg", some "/tmp/root.json", none⟩)
        ⟨none, none, .info_none, none, 0, true, "3.11.0"⟩ = (none, 50) :=
  ⟨rfl, rfl⟩

/-- C9: every root document built by the initializer gives each of the four
roles a threshold of at least 1 and at most the size of its key-id list,
and every key id a role references resolves in the root's global keys map. -/
theorem c9_root_roles_wellformed (now : Int) (kid : RoleName → String) (sg : Nat) :
    ∀ p ∈ (create_root_metadata now kid sg).signed.roles,
      role_wellformed (create_root_metadata now kid sg).signed.keys p.2 := by
  intro p hp
  simp only [create_root_metadata, sign_meta, List.mem_cons, List.not_mem_nil,
    or_false] at hp
  rcases hp with rfl | rfl | rfl | rfl <;>
  · refine ⟨le_refl 1, by simp, ?_⟩
    intro k hk
    simp only [List.mem_singleton] at hk
    subst hk
    apply lookup_assoc_isSome_of_mem
    simp [create_root_metadata, sign_meta]

/-- Witness for C9 at a concrete key assignment, for the targets role. -/
theorem c9_witness :
    role_wellformed (create_root_metadata 0
      (fun r => match r with
        | .root => "ka" | .targets => "kb" | .snapshot => "kc" | .timestamp => "kd") 7).signed.keys
      ⟨["kb"], 1⟩ :=
  c9_root_roles_wellformed 0
    (fun r => match r with
      | .root => "ka" | .targets => "kb" | .snapshot => "kc" | .timestamp => "kd") 7
    ("targets", ⟨["kb"], 1⟩) (by simp [create_root_metadata, sign_meta])

/-- C8: in every repository build, the snapshot document's meta entry for
targets.json records exactly the targets document's version and the length
and sha256 digest of the serialized targets bytes, and those bytes are the
very bytes written to metadata/targets.json; likewise the timestamp
document's meta entry for snapshot.json against the serialized snapshot
bytes written to metadata/snapshot.json. -/
theorem c8_meta_pins_serialized_bytes (ser : Serializers) (sha256 : List Nat → Nat)
    (now : Int) (kid : RoleName → String) (signer_of : RoleName → Nat)
    (ppath : String) (psize psha : Nat) :
    lookup_assoc
        (initializer_files ser (initializer_run ser sha256 now kid signer_of ppath psize psha))
        "metadata/targets.json" =
      some (ser.targets_to_json
        (initializer_run ser sha256 now kid signer_of ppath psize psha).targets_md) ∧
    lookup_assoc
        (initializer_run ser sha256 now kid signer_of ppath psize psha).snapshot_md.signed.meta
        "targets.json" =
      some ⟨(initializer_run ser sha256 now kid signer_of ppath psize psha).targets_md.signed.version,
        (ser.targets_to_json
          (initializer_run ser sha256 now kid signer_of ppath psize psha).targets_md).length,
        sha256 (ser.targets_to_json
          (initializer_run ser sha256 now kid signer_of ppath psize psha).targets_md)⟩ ∧
    lookup_assoc
        (initializer_files ser (initializer_run ser sha256 now kid signer_of ppath psize psha))
        "metadata/snapshot.json" =
      some (ser.snapshot_to_json
        (initializer_run ser sha256 now kid signer_of ppath psize psha).snapshot_md) ∧
    lookup_assoc
        (initializer_run ser sha256 now kid signer_of ppath psize psha).timestamp_md.signed.meta
        "snapshot.json" =
      some ⟨(initializer_run ser sha256 now kid signer_of ppath psize psha).snapshot_md.signed.version,
        (ser.snapshot_to_json
          (initializer_run ser sha256 now kid signer_of ppath psize psha).snapshot_md).length,
        sha256 (ser.snapshot_to_json
          (initializer_run ser sha256 now kid signer_of ppath psize psha).snapshot_md)⟩ :=
  ⟨rfl, rfl, rfl, rfl⟩

/-- C3: whenever the refresh engine fails with any error kind, persisting
the refresh leaves the previous TrustState exactly as it was and reports
the error; no document of any role is accepted. -/
theorem c3_failed_refresh_preserves_trust_state (now : Int) (th : Thresholds)
    (st : TrustState) (f : FetchedSet) (k : ErrKind)
    (h : refresh_engine now th st f = .error k) :
    refresh_and_persist now th st f = (st, some k) := by
  unfold refresh_and_persist
  rw [h]

/-- Witness for C3 at a concrete failing refresh: the fetched timestamp is
expired, so the previous TrustState survives unchanged. -/
theorem c3_witness :
    refresh_and_persist 0 ⟨1, 1, 1, 1⟩
        ⟨⟨1, 100, 1, 5, 5⟩, ⟨1, 100, 1, 5, 5⟩, ⟨1, 100, 1, 5, 5⟩, ⟨1, 100, 1, 5, 5⟩⟩
        ⟨⟨2, 0, 1, 5, 5⟩, ⟨2, 5, 5⟩, ⟨2, 100, 1, 5, 5⟩, ⟨2, 5, 5⟩, ⟨2, 100, 1, 5, 5⟩, none⟩ =
      (⟨⟨1, 100, 1, 5, 5⟩, ⟨1, 100, 1, 5, 5⟩, ⟨1, 100, 1, 5, 5⟩, ⟨1, 100, 1, 5, 5⟩⟩,
        some .expired_metadata) :=
  c3_failed_refresh_preserves_trust_state 0 ⟨1, 1, 1, 1⟩
    ⟨⟨1, 100, 1, 5, 5⟩, ⟨1, 100, 1, 5, 5⟩, ⟨1, 100, 1, 5, 5⟩, ⟨1, 100, 1, 5, 5⟩⟩
    ⟨⟨2, 0, 1, 5, 5⟩, ⟨2, 5, 5⟩, ⟨2, 100, 1, 5, 5⟩, ⟨2, 5, 5⟩, ⟨2, 100, 1, 5, 5⟩, none⟩
    .expired_metadata rfl

theorem check_doc_expired (now : Int) (t p : Nat) (d : MetaDoc) (h : d.expires ≤ now) :
    check_doc now t p d = some .expired_metadata := by
  unfold check_doc
  simp [h]

theorem check_doc_rollback (now : Int) (t p : Nat) (d : MetaDoc)
    (h1 : now < d.expires) (h2 : t ≤ d.valid_sigs) (h3 : d.version < p) :
    check_doc now t p d = some .rollback_attack := by
  unfold check_doc
  simp [not_le.mpr h1, Nat.not_lt.mpr h2, h3]

/-- C4: a metadata document encountered during refresh whose expiry instant
has passed is rejected as ExpiredMetadata, whatever its signature count:
the expiry check of every step runs before the signature check and no
hypothesis constrains the document's signatures. -/
theorem c4_expired_document_rejected (now : Int) (th : Thresholds) (st : TrustState)
    (f : FetchedSet) (r : RoleName) (d : MetaDoc)
    (hreach : reaches now th st f r = true)
    (hdoc : fetched_doc f r = some d)
    (hexp : d.expires ≤ now) :
    refresh_engine now th st f = .error .expired_metadata := by
  cases r with
  | timestamp =>
      simp only [fetched_doc, Option.some.injEq] at hdoc
      subst hdoc
      unfold refresh_engine
      rw [check_doc_expired now th.timestamp st.timestamp.version f.timestamp hexp]
  | snapshot =>
      simp only [reaches, Bool.and_eq_true] at hreach
      obtain ⟨h1, h2⟩ := hreach
      rw [step_ok, Option.isNone_iff_eq_none] at h1
      simp only [fetched_doc, Option.some.injEq] at hdoc
      subst hdoc
      unfold refresh_engine
      rw [h1]
      simp [h2, check_doc_expired now th.snapshot st.snapshot.version f.snapshot hexp]
  | targets =>
      simp only [reaches, Bool.and_eq_true] at hreach
      obtain ⟨⟨⟨h1, h2⟩, h3⟩, h4⟩ := hreach
      rw [step_ok, Option.isNone_iff_eq_none] at h1 h3
      simp only [fetched_doc, Option.some.injEq] at hdoc
      subst hdoc
      unfold refresh_engine
      rw [h1]
      simp [h2, h3, h4, check_doc_expired now th.targets st.targets.version f.targets hexp]
  | root =>
      simp only [reaches, Bool.and_eq_true] at hreach
      obtain ⟨⟨⟨⟨h1, h2⟩, h3⟩, h4⟩, h5⟩ := hreach
      rw [step_ok, Option.isNone_iff_eq_none] at h1 h3 h5
      simp only [fetched_doc] at hdoc
      unfold refresh_engine
      rw [h1]
      simp [h2, h3, h4, h5, hdoc, check_doc_expired now th.root st.root.version d hexp]

/-- Witness for C4: the fetched timestamp is expired and carries zero valid
signatures; the refresh still fails as ExpiredMetadata. -/
theorem c4_witness :
    refresh_engine 0 ⟨1, 1, 1, 1⟩
        ⟨⟨1, 100, 1, 5, 5⟩, ⟨1, 100, 1, 5, 5⟩, ⟨1, 100, 1, 5, 5⟩, ⟨1, 100, 1, 5, 5⟩⟩
        ⟨⟨5, -3, 0, 5, 5⟩, ⟨2, 5, 5⟩, ⟨2, 100, 1, 5, 5⟩, ⟨2, 5, 5⟩, ⟨2, 100, 1, 5, 5⟩, none⟩ =
      .error .expired_metadata :=
  c4_expired_document_rejected 0 ⟨1, 1, 1, 1⟩
    ⟨⟨1, 100, 1, 5, 5⟩, ⟨1, 100, 1, 5, 5⟩, ⟨1, 100, 1, 5, 5⟩, ⟨1, 100, 1, 5, 5⟩⟩
    ⟨⟨5, -3, 0, 5, 5⟩, ⟨2, 5, 5⟩, ⟨2, 100, 1, 5, 5⟩, ⟨2, 5, 5⟩, ⟨2, 100, 1, 5, 5⟩, none⟩
    .timestamp ⟨5, -3, 0, 5, 5⟩ rfl rfl (by decide)

/-- C1: a refresh or download request during which a fetched metadata
document that the refresh encounters carries a version strictly below the
previously trusted version of its role (a downgrade, with the document
otherwise unexpired and sufficiently signed) makes the refresh engine fail
as RollbackAttack, makes `refresh_metadata` report error kind
RollbackAttack, leaves the previous TrustState intact, and makes the
dispatcher answer ok false with error code PY_TUF_REFRESH_FAILED and exit
code 20. -/
theorem c1_rollback_attack_detected (now : Int) (th : Thresholds) (st : TrustState)
    (f : FetchedSet) (r : RoleName) (d : MetaDoc) (req : Request) (env : PyEnv)
    (hreach : reaches now th st f r = true)
    (hdoc : fetched_doc f r = some d)
    (hnexp : now < d.expires)
    (hsig : threshold_of th r ≤ d.valid_sigs)
    (hver : d.version < trusted_version st r)
    (hcmd : req.command = some "refresh" ∨
      (req.command = some "download" ∧ falsy req.target = false))
    (hru : falsy req.repo_url = false) (hmd : falsy req.metadata_dir = false)
    (htd : falsy req.targets_dir = false) (htr : falsy req.trusted_root = false)
    (hri : env.raises_internal = false) (hie : env.init_error = none)
    (hre : env.refresh_exc = exc_of_refresh (refresh_engine now th st f)) :
    refresh_engine now th st f = .error .rollback_attack ∧
    refresh_and_persist now th st f = (st, some .rollback_attack) ∧
    refresh_metadata true env.refresh_exc =
      .failure "Rollback attack detected: version rollback" (some "RollbackAttack") ∧
    run_main false (.parsed req) env =
      (some (.err_resp "PY_TUF_REFRESH_FAILED"
        "Rollback attack detected: version rollback"), 20) := by
  have heng : refresh_engine now th st f = .error .rollback_attack := by
    cases r with
    | timestamp =>
        simp only [fetched_doc, Option.some.injEq] at hdoc
        subst hdoc
        simp only [threshold_of] at hsig
        simp only [trusted_version] at hver
        unfold refresh_engine
        rw [check_doc_rollback now th.timestamp st.timestamp.version f.timestamp hnexp hsig hver]
    | snapshot =>
        simp only [reaches, Bool.and_eq_true] at hreach
        obtain ⟨h1, h2⟩ := hreach
        rw [step_ok, Option.isNone_iff_eq_none] at h1
        simp only [fetched_doc, Option.some.injEq] at hdoc
        subst hdoc
        simp only [threshold_of] at hsig
        simp only [trusted_version] at hver
        unfold refresh_engine
        rw [h1]
        simp [h2, check_doc_rollback now th.snapshot st.snapshot.version f.snapshot hnexp hsig hver]
    | targets =>
        simp only [reaches, Bool.and_eq_true] at hreach
        obtain ⟨⟨⟨h1, h2⟩, h3⟩, h4⟩ := hreach
        rw [step_ok, Option.isNone_iff_eq_none] at h1 h3
        simp only [fetched_doc, Option.some.injEq] at hdoc
        subst hdoc
        simp only [threshold_of] at hsig
        simp only [trusted_version] at hver
        unfold refresh_engine
        rw [h1]
        simp [h2, h3, h4,
          check_doc_rollback now th.targets st.targets.version f.targets hnexp hsig hver]
    | root =>
        simp only [reaches, Bool.and_eq_true] at hreach
        obtain ⟨⟨⟨⟨h1, h2⟩, h3⟩, h4⟩, h5⟩ := hreach
        rw [step_ok, Option.isNone_iff_eq_none] at h1 h3 h5
        simp only [fetched_doc] at hdoc
        simp only [threshold_of] at hsig
        simp only [trusted_version] at hver
        unfold refresh_engine
        rw [h1]
        simp [h2, h3, h4, h5, hdoc,
          check_doc_rollback now th.root st.root.version d hnexp hsig hver]
  have hrm : refresh_metadata true env.refresh_exc =
      .failure "Rollback attack detected: version rollback" (some "RollbackAttack") := by
    rw [hre, heng]
    rfl
  refine ⟨heng, ?_, hrm, ?_⟩
  · unfold refresh_and_persist
    rw [heng]
  · rcases hcmd with hc | ⟨hc, htg⟩
    · simp [run_main, process_request, hc, hru, hmd, htd, htr, hri, run_command, hie, hrm,
        exit_code_for]
      rfl
    · simp [run_main, process_request, hc, htg, hru, hmd, htd, htr, hri, run_command, hie, hrm,
        exit_code_for]
      rfl

/-- Witness for C1: the previously trusted timestamp has version 2 and the
repository serves a validly signed, unexpired timestamp with version 1;
the refresh of a refresh request fails as a rollback attack with error
code PY_TUF_REFRESH_FAILED and exit code 20, and TrustState survives. -/
theorem c1_witness :
    refresh_engine 0 ⟨1, 1, 1, 1⟩
        ⟨⟨1, 100, 1, 5, 5⟩, ⟨2, 100, 1, 5, 5⟩, ⟨1, 100, 1, 5, 5⟩, ⟨1, 100, 1, 5, 5⟩⟩
        ⟨⟨1, 100, 1, 5, 5⟩, ⟨2, 5, 5⟩, ⟨2, 100, 1, 5, 5⟩, ⟨2, 5, 5⟩, ⟨2, 100, 1, 5, 5⟩, none⟩ =
      .error .rollback_attack ∧
    refresh_and_persist 0 ⟨1, 1, 1, 1⟩
        ⟨⟨1, 100, 1, 5, 5⟩, ⟨2, 100, 1, 5, 5⟩, ⟨1, 100, 1, 5, 5⟩, ⟨1, 100, 1, 5, 5⟩⟩
        ⟨⟨1, 100, 1, 5, 5⟩, ⟨2, 5, 5⟩, ⟨2, 100, 1, 5, 5⟩, ⟨2, 5, 5⟩, ⟨2, 100, 1, 5, 5⟩, none⟩ =
      (⟨⟨1, 100, 1, 5, 5⟩, ⟨2, 100, 1, 5, 5⟩, ⟨1, 100, 1, 5, 5⟩, ⟨1, 100, 1, 5, 5⟩⟩,
        some .rollback_attack) ∧
    refresh_metadata true
        (exc_of_refresh (refresh_engine 0 ⟨1, 1, 1, 1⟩
          ⟨⟨1, 100, 1, 5, 5⟩, ⟨2, 100, 1, 5, 5⟩, ⟨1, 100, 1, 5, 5⟩, ⟨1, 100, 1, 5, 5⟩⟩
          ⟨⟨1, 100, 1, 5, 5⟩, ⟨2, 5, 5⟩, ⟨2, 100, 1, 5, 5⟩, ⟨2, 5, 5⟩, ⟨2, 100, 1, 5, 5⟩,
            none⟩)) =
      .failure "Rollback attack detected: version rollback" (some "RollbackAttack") ∧
    run_main false
        (.parsed ⟨some "refresh", some "http://localhost:8080", some "/tmp/md", some "/tmp/tg",
          some "/tmp/root.json", none⟩)
        ⟨none,
          exc_of_refresh (refresh_engine 0 ⟨1, 1, 1, 1⟩
            ⟨⟨1, 100, 1, 5, 5⟩, ⟨2, 100, 1, 5, 5⟩, ⟨1, 100, 1, 5, 5⟩, ⟨1, 100, 1, 5, 5⟩⟩
            ⟨⟨1, 100, 1, 5, 5⟩, ⟨2, 5, 5⟩, ⟨2, 100, 1, 5, 5⟩, ⟨2, 5, 5⟩, ⟨2, 100, 1, 5, 5⟩,
              none⟩),
          .info_none, none, 0, false, "3.11.0"⟩ =
      (some (.err_resp "PY_TUF_REFRESH_FAILED"
        "Rollback attack detected: version rollback"), 20) :=
  c1_rollback_attack_detected 0 ⟨1, 1, 1, 1⟩
    ⟨⟨1, 100, 1, 5, 5⟩, ⟨2, 100, 1, 5, 5⟩, ⟨1, 100, 1, 5, 5⟩, ⟨1, 100, 1, 5, 5⟩⟩
    ⟨⟨1, 100, 1, 5, 5⟩, ⟨2, 5, 5⟩, ⟨2, 100, 1, 5, 5⟩, ⟨2, 5, 5⟩, ⟨2, 100, 1, 5, 5⟩, none⟩
    .timestamp ⟨1, 100, 1, 5, 5⟩
    ⟨some "refresh", some "http://localhost:8080", some "/tmp/md", some "/tmp/tg",
      some "/tmp/root.json", none⟩
    ⟨none,
      exc_of_refresh (refresh_engine 0 ⟨1, 1, 1, 1⟩
        ⟨⟨1, 100, 1, 5, 5⟩, ⟨2, 100, 1, 5, 5⟩, ⟨1, 100, 1, 5, 5⟩, ⟨1, 100, 1, 5, 5⟩⟩
        ⟨⟨1, 100, 1, 5, 5⟩, ⟨2, 5, 5⟩, ⟨2, 100, 1, 5, 5⟩, ⟨2, 5, 5⟩, ⟨2, 100, 1, 5, 5⟩,
          none⟩),
      .info_none, none, 0, false, "3.11.0"⟩
    rfl rfl (by decide) (by decide) (by decide) (Or.inl rfl) rfl rfl rfl rfl rfl rfl rfl

/-- C2: for a download request the dispatcher runs initialize, then
refresh, then verify-and-download.  When the refresh step fails the
response is ok false with error code PY_TUF_REFRESH_FAILED and exit code
20, and it is identical for every possible download outcome, so the
verify-and-download step is never consulted; when initialization fails the
response is PY_TUF_INIT_FAILED, again for every download outcome. -/
theorem c2_download_refresh_failure_aborts (req : Request) (env : PyEnv)
    (dl2 : DlOutcome) (ie : String) (e : TufExc)
    (hcmd : req.command = some "download")
    (htg : falsy req.target = false)
    (hru : falsy req.repo_url = false) (hmd : falsy req.metadata_dir = false)
    (htd : falsy req.targets_dir = false) (htr : falsy req.trusted_root = false)
    (hri : env.raises_internal = false)
    (hie : env.init_error = none)
    (hre : env.refresh_exc = some e) :
    (∃ msg, run_main false (.parsed req) env =
      (some (.err_resp "PY_TUF_REFRESH_FAILED" msg), 20)) ∧
    run_main false (.parsed req) env =
      run_main false (.parsed req) { env with dl_outcome := dl2 } ∧
    run_main false (.parsed req) { env with init_error := some ie } =
      (some (.err_resp "PY_TUF_INIT_FAILED" ie), 20) := by
  have hfail : ∃ msg ty, refresh_metadata true env.refresh_exc = .failure msg ty := by
    rw [hre]
    cases e <;> exact ⟨_, _, rfl⟩
  obtain ⟨msg, ty, hrm⟩ := hfail
  refine ⟨⟨msg, ?_⟩, ?_, ?_⟩
  · simp [run_main, process_request, hcmd, htg, hru, hmd, htd, htr, hri, run_command, hie,
      hrm, exit_code_for]
    rfl
  · simp [run_main, process_request, hcmd, htg, hru, hmd, htd, htr, hri, run_command, hie, hrm]
  · simp [run_main, process_request, hcmd, htg, hru, hmd, htd, htr, hri, run_command,
      exit_code_for]
    rfl

/-- Witness for C2 at a concrete download request whose refresh raises an
expired-metadata error; two distinct download outcomes give the same
response. -/
theorem c2_witness :
    (∃ msg, run_main false
        (.parsed ⟨some "download", some "http://localhost:8080", some "/tmp/md",
          some "/tmp/tg", some "/tmp/root.json", some "plugins/a/b/index.js"⟩)
        ⟨none, some (.expired_metadata_error "timestamp expired"), .info_none, none, 0,
          false, "3.11.0"⟩ =
      (some (.err_resp "PY_TUF_REFRESH_FAILED" msg), 20)) ∧
    run_main false
        (.parsed ⟨some "download", some "http://localhost:8080", some "/tmp/md",
          some "/tmp/tg", some "/tmp/root.json", some "plugins/a/b/index.js"⟩)
        ⟨none, some (.expired_metadata_error "timestamp expired"), .info_none, none, 0,
          false, "3.11.0"⟩ =
      run_main false
        (.parsed ⟨some "download", some "http://localhost:8080", some "/tmp/md",
          some "/tmp/tg", some "/tmp/root.json", some "plugins/a/b/index.js"⟩)
        { (⟨none, some (.expired_metadata_error "timestamp expired"), .info_none, none, 0,
            false, "3.11.0"⟩ : PyEnv) with
          dl_outcome := .got 5 "aa" "bb" "cc" } ∧
    run_main false
        (.parsed ⟨some "download", some "http://localhost:8080", some "/tmp/md",
          some "/tmp/tg", some "/tmp/root.json", some "plugins/a/b/index.js"⟩)
        { (⟨none, some (.expired_metadata_error "timestamp expired"), .info_none, none, 0,
            false, "3.11.0"⟩ : PyEnv) with
          init_error := some "Trusted root not found" } =
      (some (.err_resp "PY_TUF_INIT_FAILED" "Trusted root not found"), 20) :=
  c2_download_refresh_failure_aborts
    ⟨some "download", some "http://localhost:8080", some "/tmp/md", some "/tmp/tg",
      some "/tmp/root.json", some "plugins/a/b/index.js"⟩
    ⟨none, some (.expired_metadata_error "timestamp expired"), .info_none, none, 0,
      false, "3.11.0"⟩
    (.got 5 "aa" "bb" "cc") "Trusted root not found" (.expired_metadata_error "timestamp expired")
    rfl rfl rfl rfl rfl rfl rfl rfl rfl

/-- C5: a download whose target path is absent from the trusted targets
metadata fails as TargetNotFound, and one whose fetched bytes mismatch the
declared length or every configured hash fails as VerificationFailed; in
both cases the dispatcher answers ok false with error code
PY_TUF_DOWNLOAD_FAILED and exit code 30, so the artifact is never reported
as verified. -/
theorem c5_download_failure_surfaced (hash_fn : List Nat → Nat)
    (targets : List (String × TargetFileEntry)) (path : String) (bytes : List Nat)
    (k : TVErr) (req : Request) (env : PyEnv)
    (hres : target_verifier hash_fn targets path bytes = .error k)
    (hcmd : req.command = some "download")
    (htgt : req.target = some path) (hpath : path.isEmpty = false)
    (hru : falsy req.repo_url = false) (hmd : falsy req.metadata_dir = false)
    (htd : falsy req.targets_dir = false) (htr : falsy req.trusted_root = false)
    (hri : env.raises_internal = false) (hie : env.init_error = none)
    (hre : env.refresh_exc = none)
    (hdl : env.dl_outcome = dl_outcome_of (target_verifier hash_fn targets path bytes)) :
    (∃ msg, run_main false (.parsed req) env =
      (some (.err_resp "PY_TUF_DOWNLOAD_FAILED" msg), 30)) ∧
    (k = .target_not_found ↔ lookup_assoc targets path = none) ∧
    (k = .verification_failed →
      ∃ entry, lookup_assoc targets path = some entry ∧
        verify_artifact hash_fn entry bytes = false) := by
  have htg : falsy req.target = false := by rw [htgt, falsy, hpath]
  rw [hres] at hdl
  have hchar : (k = .target_not_found ↔ lookup_assoc targets path = none) ∧
      (k = .verification_failed →
        ∃ entry, lookup_assoc targets path = some entry ∧
          verify_artifact hash_fn entry bytes = false) := by
    unfold target_verifier at hres
    cases hl : lookup_assoc targets path with
    | none =>
        simp only [hl, Except.error.injEq] at hres
        subst hres
        exact ⟨by simp, by simp⟩
    | some entry =>
        simp only [hl] at hres
        cases hv : verify_artifact hash_fn entry bytes with
        | true => simp [hv] at hres
        | false =>
            simp [hv] at hres
            subst hres
            exact ⟨by simp, fun _ => ⟨entry, rfl, hv⟩⟩
  refine ⟨?_, hchar⟩
  cases k with
  | target_not_found =>
      refine ⟨"Target not found: " ++ (req.target.getD ""), ?_⟩
      simp [run_main, process_request, hcmd, htg, hru, hmd, htd, htr, hri, run_command, hie,
        hre, refresh_metadata, hdl, dl_outcome_of, verify_and_download_target, exit_code_for]
      rfl
  | verification_failed =>
      refine ⟨"Target verification failed: length or hash mismatch", ?_⟩
      simp [run_main, process_request, hcmd, htg, hru, hmd, htd, htr, hri, run_command, hie,
        hre, refresh_metadata, hdl, dl_outcome_of, verify_and_download_target, exit_code_for]
      rfl

/-- Witness for C5: an empty trusted targets map and the path p; the
verifier reports the target as missing and the dispatcher answers
PY_TUF_DOWNLOAD_FAILED with exit code 30. -/
theorem c5_witness :
    (∃ msg, run_main false
        (.parsed ⟨some "download", some "http://localhost:8080", some "/tmp/md",
          some "/tmp/tg", some "/tmp/root.json", some "plugins/missing.js"⟩)
        ⟨none, none,
          dl_outcome_of (target_verifier (fun b => b.length) [] "plugins/missing.js" [1, 2]),
          none, 0, false, "3.11.0"⟩ =
      (some (.err_resp "PY_TUF_DOWNLOAD_FAILED" msg), 30)) ∧
    (TVErr.target_not_found = .target_not_found ↔
      lookup_assoc ([] : List (String × TargetFileEntry)) "plugins/missing.js" = none) ∧
    (TVErr.target_not_found = .verification_failed →
      ∃ entry, lookup_assoc ([] : List (String × TargetFileEntry)) "plugins/missing.js" =
          some entry ∧
        verify_artifact (fun b => b.length) entry [1, 2] = false) :=
  c5_download_failure_surfaced (fun b => b.length) [] "plugins/missing.js" [1, 2]
    .target_not_found
    ⟨some "download", some "http://localhost:8080", some "/tmp/md", some "/tmp/tg",
      some "/tmp/root.json", some "plugins/missing.js"⟩
    ⟨none, none,
      dl_outcome_of (target_verifier (fun b => b.length) [] "plugins/missing.js" [1, 2]),
      none, 0, false, "3.11.0"⟩
    rfl rfl rfl rfl rfl rfl rfl rfl rfl rfl rfl rfl

theorem run_command_codes (req : Request) (env : PyEnv) :
    exit_code_for (run_command req env) = spec_exit_code (run_command req env) := by
  unfold run_command
  repeat' split
  all_goals rfl

/-- C6: the dispatcher's exit code matches the specified classification of
its response: 0 when ok true; 10 for the codes PY_TUF_NO_INPUT,
PY_TUF_INVALID_ARGS and PY_TUF_BAD_JSON; 20 for PY_TUF_INIT_FAILED and
PY_TUF_REFRESH_FAILED; 30 for PY_TUF_DOWNLOAD_FAILED; 50 otherwise.  On
the two paths that print nothing, the exit code is 10 for unparsable JSON
and 50 for an unclassified internal error. -/
theorem c6_exit_code_classification (b : Bool) (line : StdinLine) (env : PyEnv) :
    (run_main b line env).2 =
      (match (run_main b line env).1 with
       | some r => spec_exit_code r
       | none =>
           match line with
           | .bad_json _ => 10
           | _ => 50) := by
  cases b with
  | true => rfl
  | false =>
      cases line with
      | empty_line => rfl
      | bad_json m => rfl
      | parsed req =>
          show (process_request req env).2 =
            (match (process_request req env).1 with
             | some r => spec_exit_code r
             | none => 50)
          unfold process_request
          split
          · rfl
          · split
            · rfl
            · split
              · rfl
              · exact run_command_codes req env

end RagnosVault
